import Mathlib

/-!
Verification development for the RISA streaming reconstruction pipeline.

The definitions below are a shallow embedding of the C++ sources:
  * `glados::Image` (glados/Image.h, concatenated into pipeline/OutputSide.h),
  * `glados::MemoryPool` (modelled from the spec, see the doc comment),
  * `glados::Volume` (glados/Volume.h),
  * `risa::Receiver` (UDPReceiver/Receiver/Receiver.cpp),
  * the stage skeletons `risa::cuda::Attenuation`, `H2D`, `D2H`, `Template`
    (Receiver.cpp, Copy/H2D.cu, Copy/D2H.cu).

Machine integers are modelled as `Nat`/`Int`; the one place where unsigned
wrap-around matters (the `lostSinos_` counter of `H2D`) reduces modulo `2 ^ 32`
explicitly.  Buffers are pairs of an allocation identifier (standing for the
pointer value, so that aliasing is expressible) and the element contents.
-/

namespace RISA

/-- A pooled buffer: an allocation identifier (standing for the pointer value)
paired with the element contents. -/
abbrev Buffer := Nat × List Nat

/-- Shallow embedding of `glados::Image` (glados/Image.h).  The fields mirror
the private members `size_`, `index_`, `plane_`, `memoryPoolIndex_`, `start_`,
`data_`, `valid_`; `device` stands for the accelerator identifier kept in the
`MemoryManager` base class (`setDevice`/`device()` used by the stages).
Timestamps are abstracted to `Nat`. -/
structure Image where
  size : Nat
  index : Nat
  plane : Nat
  memoryPoolIndex : Nat
  start : Nat
  device : Nat
  data : Option Buffer
  valid : Bool
deriving Repr, DecidableEq

namespace Image

/-- The default constructor `Image()`: zero size/index/plane/pool index, null
data, invalid.  An invalid Image is the end-of-stream sentinel. -/
def sentinel : Image :=
  { size := 0, index := 0, plane := 0, memoryPoolIndex := 0, start := 0
  , device := 0, data := none, valid := false }

/-- The constructor `Image(size, idx = 0, planeID = 0, img_data = nullptr)`:
stores the arguments in that order (`size_`, `index_`, `plane_`, `data_`),
marks the image valid, and if `img_data` is null allocates a fresh buffer of
`size` elements (`data_ = MemoryManager::make_ptr(size_)`), here with the
given fresh allocation identifier and unspecified (zero) contents. -/
def ctor4 (size idx planeID : Nat) (img_data : Option Buffer) (allocId : Nat) : Image :=
  { size := size, index := idx, plane := planeID, memoryPoolIndex := 0
  , start := 0, device := 0
  , data := match img_data with
            | none => some (allocId, List.replicate size 0)
            | some b => some b
  , valid := true }

/-- The move constructor `Image(Image&&)`: every field (including the buffer
pointer) moves to the destination; the source is left with a null pointer and
`valid_ = false`.  Returns (destination, source after the move). -/
def moveCtor (other : Image) : Image × Image :=
  (other, { other with data := none, valid := false })

/-- The move assignment `operator=(Image&&)`: the destination takes every
field of `rhs` (the old contents of `dest` are dropped); `rhs` is left with a
null pointer and `valid_ = false`.  Returns (destination, source after). -/
def moveAssign (_dest rhs : Image) : Image × Image :=
  (rhs, { rhs with data := none, valid := false })

/-- The copy constructor `Image(const Image&)`: copies `size_`, `index_`,
`plane_`, `memoryPoolIndex_`, `valid_` (but not `start_`, which stays default);
if the source pointer is null the copy has a null pointer, otherwise a fresh
buffer of `size_` elements is allocated (`make_ptr(size_)`, identifier
`allocId`) and `size_` elements are copied into it.  The source is taken by
const reference and returned unchanged as the second component. -/
def copyCtor (other : Image) (allocId : Nat) : Image × Image :=
  ({ size := other.size, index := other.index, plane := other.plane
   , memoryPoolIndex := other.memoryPoolIndex, start := 0, device := other.device
   , data := match other.data with
             | none => none
             | some b => some (allocId, b.2.take other.size)
   , valid := other.valid }
  , other)

end Image

/-- Modelled from the spec: `glados::MemoryPool` (glados/MemoryPool.h is not
under src/, only its callers are).  Per the spec, the pool keeps one free list
per stage registration index; `requestMemory(index)` blocks until a buffer is
available for the registration and wraps it in a valid Image whose destruction
auto-returns the buffer; `returnMemory(image)` places the buffer back on the
free list of its registration. -/
structure MemoryPool where
  freeLists : Nat → List Buffer

namespace MemoryPool

/-- Modelled from the spec: `requestMemory(index) → Image`.  Blocking on an
empty free list is modelled by returning `none`; otherwise the head buffer is
removed from the free list of `idx` and wrapped in a valid Image that records
its registration index. -/
def requestMemory (p : MemoryPool) (idx : Nat) : Option (MemoryPool × Image) :=
  match p.freeLists idx with
  | [] => none
  | b :: rest =>
    some ({ freeLists := fun j => if j = idx then rest else p.freeLists j }
         , { size := b.2.length, index := 0, plane := 0, memoryPoolIndex := idx
           , start := 0, device := 0, data := some b, valid := true })

/-- Modelled from the spec: `returnMemory(image)` places the image's buffer
back on the free list of its registration. -/
def returnMemory (p : MemoryPool) (img : Image) : MemoryPool :=
  match img.data with
  | none => p
  | some b =>
    { freeLists := fun j =>
        if j = img.memoryPoolIndex then p.freeLists img.memoryPoolIndex ++ [b]
        else p.freeLists j }

end MemoryPool

/-- `glados::Image::~Image` (glados/Image.h): if the image is valid, its
buffer is returned to the MemoryPool; destroying an invalid image has no
effect on the pool. -/
def Image.destruct (p : MemoryPool) (img : Image) : MemoryPool :=
  if img.valid then p.returnMemory img else p

/-- One `std::copy` call writing into a flat buffer: copies `len` elements of
`src` starting at `srcOff` into `dst` starting at `dstOff`; every other
position of `dst` is unchanged.  Reads and writes out of range are modelled by
the `getD` default. -/
def copyRange (dst : List Nat) (dstOff : Nat) (src : List Nat) (srcOff len : Nat) : List Nat :=
  (List.range dst.length).map fun i =>
    if dstOff ≤ i ∧ i < dstOff + len then src.getD (srcOff + (i - dstOff)) 0 else dst.getD i 0

/-- The configuration values the Receiver reads (`Receiver::readConfig`):
`numberOfDetectors_` (number_of_fan_detectors), `numberOfDetectorModules_`,
`numberOfProjections_` (= sampling_rate * 1e6 / scan_rate) and `bufferSize_`
(inputBufferSize). -/
structure ReceiverConfig where
  numberOfDetectors : Nat
  numberOfDetectorModules : Nat
  numberOfProjections : Nat
  bufferSize : Nat
deriving Repr, DecidableEq

namespace Receiver

/-- The stitching loop of `Receiver::loadImage` (Receiver.cpp lines 76-81):
for each detector module `detModInd`, `std::copy` moves
`numberOfDetectorsPerModule * numberOfProjections_` samples, starting at
`startIndex = (index % bufferSize_) * numberOfDetectorsPerModule *
numberOfProjections_` in that module's ring buffer, to output offset
`detModInd * numberOfDetectorsPerModule * numberOfProjections_`.  In the
source `numberOfDetectorsPerModule` is the hardcoded local `int = 16`, not
`numberOfDetectors_ / numberOfDetectorModules_`.  `sino0` is the previous
content of the requested pool buffer (the copies overwrite only the stitched
region). -/
def stitch (cfg : ReceiverConfig) (buffers : Nat → List Nat) (index : Nat)
    (sino0 : List Nat) : List Nat :=
  (List.range cfg.numberOfDetectorModules).foldl
    (fun acc detModInd =>
      copyRange acc (detModInd * (16 * cfg.numberOfProjections)) (buffers detModInd)
        ((index % cfg.bufferSize) * (16 * cfg.numberOfProjections))
        (16 * cfg.numberOfProjections))
    sino0

/-- `Receiver::loadImage` (Receiver.cpp lines 69-87).  `fetch` is the result of
`notification_.fetch()`, with `none` standing for the value `-1` signalled at
shutdown, in which case the default (invalid) Image is returned.  Otherwise
`sinoReq` is the Image obtained from `MemoryPool::requestMemory`; the module
ring buffers are stitched into its buffer, and index, plane (`index % 2`,
hardcoded 2 in the source) and the start timestamp (`now`) are set. -/
def loadImage (cfg : ReceiverConfig) (buffers : Nat → List Nat)
    (fetch : Option Nat) (sinoReq : Image) (now : Nat) : Image :=
  match fetch with
  | none => Image.sentinel
  | some index =>
    { sinoReq with
      data := match sinoReq.data with
              | none => none
              | some b => some (b.1, stitch cfg buffers index b.2)
    , index := index
    , plane := index % 2
    , start := now }

end Receiver

/-- An observable action of a stage's `process` entry: a push into the worker
queue of a device, a join of a device's worker thread, or a push into the
stage's output queue `results_`. -/
inductive Event where
  | pushWorker : Nat → Image → Event
  | joinWorker : Nat → Event
  | pushResult : Image → Event
deriving Repr, DecidableEq

/-- `Attenuation::process` / `D2H::process` / `Template::process`: a valid
image is pushed to the worker queue of its own device (`in.device()`); on the
sentinel, one default (invalid) Image is pushed to every worker queue, the
worker threads are joined in order, and one default (invalid) Image is pushed
to the results queue.  The returned list is the sequence of actions performed. -/
def stageProcess (numberOfDevices : Nat) (input : Image) : List Event :=
  if input.valid then [Event.pushWorker input.device input]
  else
    ((List.range numberOfDevices).map fun i => Event.pushWorker i Image.sentinel) ++
    ((List.range numberOfDevices).map fun i => Event.joinWorker i) ++
    [Event.pushResult Image.sentinel]

namespace H2D

/-- `H2D::process` (H2D.cu lines 85-129): a valid image is pushed to the worker
queue of `lastDevice_`, which is then incremented modulo the number of devices
(round-robin scheduling, not the image's own device); the sentinel branch is
the same as in the other stages.  Returns the actions and the new
`lastDevice_`. -/
def process (numberOfDevices lastDevice : Nat) (input : Image) : List Event × Nat :=
  if input.valid then
    ([Event.pushWorker lastDevice input], (lastDevice + 1) % numberOfDevices)
  else
    (((List.range numberOfDevices).map fun i => Event.pushWorker i Image.sentinel) ++
     ((List.range numberOfDevices).map fun i => Event.joinWorker i) ++
     [Event.pushResult Image.sentinel]
    , lastDevice)

end H2D

/-- The `processor()` worker loop shared by the stages: repeatedly take an
image from the device's queue, exit the loop if it is invalid, otherwise apply
the stage transform and publish the output.  `queued` is the sequence of
images the queue will deliver; the returned list is the published outputs. -/
def workerRun (transform : Image → Image) : List Image → List Image
  | [] => []
  | img :: rest =>
    if img.valid then transform img :: workerRun transform rest else []

/-- One iteration body of `H2D::processor` (H2D.cu lines 142-169) for a valid
input `sinogram`: `img` is the fresh device buffer from `requestMemory`;
`cudaMemcpyAsync` copies `sinogram.size()` elements into it, and the metadata
lines 158-161 set index, device (`deviceID`), plane and start from the input. -/
def H2D.processorStep (sinogram img : Image) (deviceID : Nat) : Image :=
  { img with
    data := match img.data, sinogram.data with
            | some b, some s => some (b.1, copyRange b.2 0 s.2 0 sinogram.size)
            | d, _ => d
  , index := sinogram.index
  , device := deviceID
  , plane := sinogram.plane
  , start := sinogram.start }

/-- One iteration body of `D2H::processor` (D2H.cu lines 124-148) for a valid
input `img`: `ret` is the fresh host buffer from `requestMemory`;
`cudaMemcpyAsync` copies `img.size()` elements into it, and lines 139-141 set
index, plane and start from the input (the host image has no device to set). -/
def D2H.processorStep (img ret : Image) : Image :=
  { ret with
    data := match ret.data, img.data with
            | some b, some s => some (b.1, copyRange b.2 0 s.2 0 img.size)
            | d, _ => d
  , index := img.index
  , plane := img.plane
  , start := img.start }

/-- One iteration body of `Attenuation::processor` (Receiver.cpp lines
253-279) for a valid input `sinogram`: `sino` is the fresh device buffer from
`requestMemory`; the `computeAttenuation` kernel (an opaque numeric transform
of the input contents and plane, abstracted as `kernel`) fills it, and lines
269-272 set index, device (`deviceID`), plane and start from the input. -/
def Attenuation.processorStep (kernel : List Nat → Nat → List Nat)
    (sinogram sino : Image) (deviceID : Nat) : Image :=
  { sino with
    data := match sino.data, sinogram.data with
            | some b, some s => some (b.1, kernel s.2 sinogram.plane)
            | d, _ => d
  , index := sinogram.index
  , device := deviceID
  , plane := sinogram.plane
  , start := sinogram.start }

/-- The loss-accounting state of `H2D` (H2D.cu line 40-41): `lastIndex_{0u}`
and the 32-bit unsigned counter `lostSinos_{0u}`. -/
structure H2DCounters where
  lastIndex : Nat
  lostSinos : Nat
deriving Repr, DecidableEq

namespace H2D

/-- The loss-accounting lines of `H2D::process` (H2D.cu lines 103-110) run for
one valid image of frame index `index`:
`int diff = sinogram.index() - lastIndex_ - 1; lostSinos_ += diff;
lastIndex_ = sinogram.index();` — `lostSinos_` is an unsigned 32-bit counter,
so the addition of the (possibly negative) `diff` wraps modulo `2 ^ 32`. -/
def lossStep (s : H2DCounters) (index : Nat) : H2DCounters :=
  { lastIndex := index
  , lostSinos :=
      ((((s.lostSinos : Int) + ((index : Int) - (s.lastIndex : Int) - 1)) % (2 ^ 32)).toNat) }

/-- The counters after `H2D::process` has consumed the valid images with the
given frame indices, starting from the constructed state. -/
def lossRun (indices : List Nat) : H2DCounters :=
  indices.foldl lossStep { lastIndex := 0, lostSinos := 0 }

end H2D

/-- A configuration value: a number (int or float entries are both read by the
numeric `get_value`/`lookupValue` accessors) or a string. -/
inductive CVal where
  | numVal : Int → CVal
  | strVal : String → CVal
deriving Repr, DecidableEq

/-- A configuration document: a keyed list of values. -/
def Config := List (String × CVal)

/-- Keyed lookup returning a numeric entry, `none` if the key is missing or
holds a non-numeric value (missing key or bad type). -/
def Config.getNum (c : Config) (k : String) : Option Int :=
  match (c.find? fun p => p.1 == k).map (fun p => p.2) with
  | some (CVal.numVal n) => some n
  | _ => none

/-- `get_element_in_list("inputs", "inputpath", ("inputtype", t))`: the inputs
list is a list of (inputtype, inputpath) pairs; returns the path of the first
entry of type `t`. -/
def getInputPath (inputs : List (String × String)) (t : String) : Option String :=
  (inputs.find? fun p => p.1 == t).map fun p => p.2

/-- `Receiver::readConfig` (Receiver.cpp lines 89-102): succeeds — returning
`EXIT_SUCCESS` (0) — exactly when all five `lookupValue` calls succeed;
otherwise returns `EXIT_FAILURE` (1). -/
def Receiver.readConfig (c : Config) : Nat :=
  if (["samplingRate", "numberOfFanDetectors", "scanRate", "inputBufferSize",
       "numberOfDetectorModules"].all fun k => (c.getNum k).isSome)
  then 0 else 1

/-- `Receiver::Receiver` configuration check (Receiver.cpp lines 36-39):
`if (readConfig(configPath)) throw std::runtime_error(...)`. -/
def Receiver.construct (c : Config) : Except String Unit :=
  if Receiver.readConfig c ≠ 0 then
    Except.error "Receiver: Configuration file could not be loaded successfully. Please check!"
  else Except.ok ()

/-- The keys `Attenuation::readConfig` (Receiver.cpp lines 488-518) reads with
`get_value`; any missing key or bad type raises `ptree_error`, caught to
return `EXIT_FAILURE`. -/
def Attenuation.configKeys : List String :=
  ["number_of_fan_detectors", "number_of_det_modules", "number_of_reference_frames",
   "number_of_planes", "sampling_rate", "scan_rate", "source_offset", "xa", "xb",
   "xc", "xd", "xe", "xf", "lower_lim_offset", "upper_lim_offset",
   "blocksize_2d_attenutation", "mempoolsize_attenuation", "thresh_min", "thresh_max"]

/-- `Attenuation::readConfig`: 0 (`EXIT_SUCCESS`) exactly when every key and
both input paths (dark, reference) are found; 1 (`EXIT_FAILURE`) otherwise. -/
def Attenuation.readConfig (c : Config) (inputs : List (String × String)) : Nat :=
  if (Attenuation.configKeys.all fun k => (c.getNum k).isSome) &&
     (getInputPath inputs "dark").isSome && (getInputPath inputs "reference").isSome
  then 0 else 1

/-- `Attenuation::Attenuation` configuration check (Receiver.cpp lines
150-158): `if (readConfig(config_reader)) throw std::runtime_error(...)`. -/
def Attenuation.construct (c : Config) (inputs : List (String × String)) : Except String Unit :=
  if Attenuation.readConfig c inputs ≠ 0 then
    Except.error "recoLib::cuda::Attenuation: Configuration file could not be loaded successfully. Please check!"
  else Except.ok ()

/-- `H2D::readConfig` (H2D.cu lines 172-186): 0 exactly when the four keys are
read; 1 on `ptree_error`. -/
def H2D.readConfig (c : Config) : Nat :=
  if (["number_of_fan_detectors", "mempoolsize_h2d", "sampling_rate",
       "scan_rate"].all fun k => (c.getNum k).isSome)
  then 0 else 1

/-- `H2D::H2D` configuration check (H2D.cu lines 45-48):
`if (readConfig(config_reader)) throw std::runtime_error(...)`. -/
def H2D.construct (c : Config) : Except String Unit :=
  if H2D.readConfig c ≠ 0 then
    Except.error "Configuration file could not be read. Please check!"
  else Except.ok ()

/-- `D2H::readConfig` (D2H.cu lines 151-160): 0 exactly when both keys are
read; 1 on `ptree_error`. -/
def D2H.readConfig (c : Config) : Nat :=
  if (["number_of_pixels", "mempoolsize_d2h"].all fun k => (c.getNum k).isSome)
  then 0 else 1

/-- `D2H::D2H` configuration check (D2H.cu lines 39-46):
`if (readConfig(config_reader)) throw std::runtime_error(...)`. -/
def D2H.construct (c : Config) : Except String Unit :=
  if D2H.readConfig c ≠ 0 then
    Except.error "recoLib::cuda::D2H: unable to read config file. Please check!"
  else Except.ok ()

/-- `Template::readConfig` (Template.cpp, concatenated into D2H.cu, lines
299-307): 0 exactly when `number_of_pixels` is read; 1 on `ptree_error`. -/
def Template.readConfig (c : Config) : Nat :=
  if (c.getNum "number_of_pixels").isSome then 0 else 1

/-- `Template::Template` configuration check (Template.cpp lines 202-210,
concatenated into D2H.cu): the test is `if (!readConfig(config_reader))
throw ...` — negated, unlike every other stage — so the constructor throws
exactly when `readConfig` returns 0 (`EXIT_SUCCESS`). -/
def Template.construct (c : Config) : Except String Unit :=
  if Template.readConfig c = 0 then
    Except.error "recoLib::cuda::Template: unable to read config file. Please check!"
  else Except.ok ()

/-- Shallow embedding of `glados::Volume` (glados/Volume.h): width, height,
depth, the backing buffer (allocation identifier `ptrId` and flat contents
laid out slice-major) and the validity flag. -/
structure Volume where
  width : Nat
  height : Nat
  depth : Nat
  ptrId : Nat
  contents : List Nat
  valid : Bool
deriving Repr, DecidableEq

/-- `glados::Volume::operator[]` (Volume.h lines 144-158): throws
`std::out_of_range` for `i ≥ depth_`; otherwise allocates a fresh
`width_ × height_` buffer (`make_ptr(width_, height_)`, identifier `allocId`),
`std::copy`-ing slice `i` (positions `i*width_*height_` up to
`(i+1)*width_*height_`) into it, and returns
`Image{width_, height_, i, std::move(ptr)}` — which calls the constructor
`Image(size, idx, planeID, img_data)`, so the Image gets `size = width_`,
`index = height_` and `plane = i`. -/
def Volume.sliceAt (v : Volume) (i : Nat) (allocId : Nat) : Except String Image :=
  if i ≥ v.depth then Except.error "Volume: invalid slice index"
  else
    Except.ok (Image.ctor4 v.width v.height i
      (some (allocId, (v.contents.drop (i * v.width * v.height)).take (v.width * v.height)))
      allocId)

/-- The number of pushes `process` makes into the worker queue of device `d`. -/
def countPushWorkerTo (d : Nat) : List Event → Nat
  | [] => 0
  | Event.pushWorker d2 _ :: rest => (if d2 = d then 1 else 0) + countPushWorkerTo d rest
  | _ :: rest => countPushWorkerTo d rest

/-- The number of pushes `process` makes into the output queue `results_`. -/
def countPushResult : List Event → Nat
  | [] => 0
  | Event.pushResult _ :: rest => 1 + countPushResult rest
  | _ :: rest => countPushResult rest

/-! ### Helper lemmas -/

theorem copyRange_length (dst src : List Nat) (dstOff srcOff len : Nat) :
    (copyRange dst dstOff src srcOff len).length = dst.length := by
  simp [copyRange]

theorem copyRange_getD_inside (dst src : List Nat) (dstOff srcOff len i : Nat)
    (h1 : dstOff ≤ i) (h2 : i < dstOff + len) (h3 : i < dst.length) :
    (copyRange dst dstOff src srcOff len).getD i 0 =
      src.getD (srcOff + (i - dstOff)) 0 := by
  have hlen : i < (copyRange dst dstOff src srcOff len).length := by
    rw [copyRange_length]; exact h3
  rw [List.getD_eq_getElem _ _ hlen]
  simp [copyRange, h1, h2, h3]

theorem copyRange_getD_outside (dst src : List Nat) (dstOff srcOff len i : Nat)
    (h : i < dstOff ∨ dstOff + len ≤ i) :
    (copyRange dst dstOff src srcOff len).getD i 0 = dst.getD i 0 := by
  by_cases h3 : i < dst.length
  · have hlen : i < (copyRange dst dstOff src srcOff len).length := by
      rw [copyRange_length]; exact h3
    rw [List.getD_eq_getElem _ _ hlen]
    have hcond : ¬(dstOff ≤ i ∧ i < dstOff + len) := by omega
    simp [copyRange, hcond, h3]
  · have h4 : dst.length ≤ i := by omega
    have h5 : (copyRange dst dstOff src srcOff len).length ≤ i := by
      rw [copyRange_length]; exact h4
    rw [List.getD_eq_default _ _ h5, List.getD_eq_default _ _ h4]

theorem countPushWorkerTo_append (d : Nat) (a b : List Event) :
    countPushWorkerTo d (a ++ b) = countPushWorkerTo d a + countPushWorkerTo d b := by
  induction a with
  | nil => simp [countPushWorkerTo]
  | cons e rest ih => cases e <;> simp [countPushWorkerTo, ih] <;> omega

theorem countPushResult_append (a b : List Event) :
    countPushResult (a ++ b) = countPushResult a + countPushResult b := by
  induction a with
  | nil => simp [countPushResult]
  | cons e rest ih => cases e <;> simp [countPushResult, ih] <;> omega

theorem countPushWorkerTo_pushes (d K : Nat) (img : Image) :
    countPushWorkerTo d ((List.range K).map fun i => Event.pushWorker i img) =
      if d < K then 1 else 0 := by
  induction K with
  | zero => simp [countPushWorkerTo]
  | succ n ih =>
    rw [List.range_succ, List.map_append, countPushWorkerTo_append, ih]
    simp only [List.map_cons, List.map_nil, countPushWorkerTo]
    split_ifs <;> omega

theorem countPushWorkerTo_joins (d K : Nat) :
    countPushWorkerTo d ((List.range K).map fun i => Event.joinWorker i) = 0 := by
  induction K with
  | zero => simp [countPushWorkerTo]
  | succ n ih =>
    rw [List.range_succ, List.map_append, countPushWorkerTo_append, ih]
    simp [countPushWorkerTo]

theorem countPushResult_joins (K : Nat) :
    countPushResult ((List.range K).map fun i => Event.joinWorker i) = 0 := by
  induction K with
  | zero => simp [countPushResult]
  | succ n ih =>
    rw [List.range_succ, List.map_append, countPushResult_append, ih]
    simp [countPushResult]

theorem countPushResult_pushes (K : Nat) (img : Image) :
    countPushResult ((List.range K).map fun i => Event.pushWorker i img) = 0 := by
  induction K with
  | zero => simp [countPushResult]
  | succ n ih =>
    rw [List.range_succ, List.map_append, countPushResult_append, ih]
    simp [countPushResult]

theorem workerRun_until_invalid (transform : Image → Image) (xs ys : List Image)
    (inv : Image) (hinv : inv.valid = false) (hxs : ∀ x ∈ xs, x.valid = true) :
    workerRun transform (xs ++ inv :: ys) = xs.map transform := by
  induction xs with
  | nil => simp [workerRun, hinv]
  | cons a rest ih =>
    have ha : a.valid = true := hxs a (by simp)
    have ih2 := ih fun x hx => hxs x (by simp [hx])
    simp only [List.cons_append, workerRun, ha, if_true, List.map_cons, List.append_eq]
    rw [ih2]

/-! ### C7: pool round trip through Image destruction -/

/-- The property claimed for the pool round trip: requesting a buffer for
registration `idx` succeeds with a valid Image, destroying that Image restores
the free-list length of `idx` to its pre-request value and leaves every other
registration untouched; and destroying an invalid Image leaves any pool
unchanged. -/
def PoolRoundTrip (p : MemoryPool) (idx : Nat) : Prop :=
  (∃ q img, p.requestMemory idx = some (q, img) ∧ img.valid = true ∧
    ((Image.destruct q img).freeLists idx).length = (p.freeLists idx).length ∧
    (∀ j, j ≠ idx → (Image.destruct q img).freeLists j = p.freeLists j)) ∧
  (∀ (q : MemoryPool) (img : Image), img.valid = false → Image.destruct q img = q)

/-- C7: requesting a buffer from the memory pool and then destroying the
returned Image restores the pool's free-buffer count to its pre-request
value; the Image destructor calls returnMemory exactly when the Image is
valid, and destroying an invalid Image leaves the pool unchanged.
(The MemoryPool side is modelled from the spec; the destructor is from
glados/Image.h.) -/
theorem requestMemory_destruct_roundtrip (p : MemoryPool) (idx : Nat)
    (b : Buffer) (rest : List Buffer) (h : p.freeLists idx = b :: rest) :
    PoolRoundTrip p idx := by
  have hreq : p.requestMemory idx = some
      ({ freeLists := fun j => if j = idx then rest else p.freeLists j }
      , { size := b.2.length, index := 0, plane := 0, memoryPoolIndex := idx
        , start := 0, device := 0, data := some b, valid := true }) := by
    simp [MemoryPool.requestMemory, h]
  refine ⟨⟨_, _, hreq, rfl, ?_, ?_⟩, ?_⟩
  · simp [Image.destruct, MemoryPool.returnMemory, h]
  · intro j hj
    simp [Image.destruct, MemoryPool.returnMemory, hj]
  · intro q img himg
    simp [Image.destruct, himg]

/-- A concrete pool with one free buffer at registration 0. -/
def poolW : MemoryPool := ⟨fun j => if j = 0 then [(1, [5, 6])] else []⟩

/-- Witness for C7 at the concrete pool `poolW`, registration 0. -/
theorem requestMemory_destruct_roundtrip_witness :
    poolW.freeLists 0 = (1, [5, 6]) :: [] ∧ PoolRoundTrip poolW 0 :=
  ⟨rfl, requestMemory_destruct_roundtrip poolW 0 (1, [5, 6]) [] rfl⟩

/-! ### C8: move and copy semantics of Image -/

/-- The move/copy semantics that hold on the code: moving (by constructor or
assignment) transfers every field — buffer pointer, size, index, plane, start
timestamp, pool index — to the destination and leaves the source invalid;
copy-construction returns the source unchanged, and when the source holds a
buffer `(pid, c)` the copy holds a fresh allocation `fid` with the same
contents (a different pointer whenever `fid ≠ pid`), the copy being valid
exactly when the source is. -/
def MoveCopySpec (img : Image) (fid pid : Nat) (c : List Nat) : Prop :=
  (img.moveCtor.1 = img ∧ (img.moveCtor.2).valid = false) ∧
  (∀ d : Image, (Image.moveAssign d img).1 = img ∧
    ((Image.moveAssign d img).2).valid = false) ∧
  ((img.copyCtor fid).2 = img ∧
   (img.copyCtor fid).1.data = some (fid, c) ∧
   (fid ≠ pid → (img.copyCtor fid).1.data ≠ img.data) ∧
   ((img.copyCtor fid).1).valid = img.valid ∧
   (img.copyCtor fid).1.size = img.size ∧
   (img.copyCtor fid).1.index = img.index ∧
   (img.copyCtor fid).1.plane = img.plane)

/-- C8 (amended): for every Image, move-construction and move-assignment
transfer the buffer pointer and all metadata to the destination and leave the
source with valid() == false; copy-construction leaves the source unchanged
and, when the source holds a buffer, allocates a fresh buffer with the same
contents (the copy is valid exactly when the source is).  The original claim
fails only for the bufferless invalid Image, see the counterexample. -/
theorem image_move_copy (img : Image) (fid pid : Nat) (c : List Nat)
    (hdata : img.data = some (pid, c)) (hlen : c.length = img.size) :
    MoveCopySpec img fid pid c := by
  refine ⟨⟨rfl, rfl⟩, fun d => ⟨rfl, rfl⟩, rfl, ?_, ?_, rfl, rfl, rfl, rfl⟩
  · simp [Image.copyCtor, hdata, ← hlen]
  · intro hne
    simp only [Image.copyCtor, hdata]
    intro hcontra
    exact hne (by injection hcontra with h1; exact (Prod.mk.injEq _ _ _ _ ▸ h1).1)

/-- Counterexample to C8 as stated: copy-constructing the default (invalid,
bufferless) Image — which the claim's "for every Image" includes — allocates
no fresh buffer (the copy's pointer is null) and leaves the source invalid,
not valid. -/
theorem image_copy_sentinel_counterexample :
    (Image.copyCtor Image.sentinel 7).1.data = none ∧
    ((Image.copyCtor Image.sentinel 7).2).valid = false := by
  exact ⟨rfl, rfl⟩

/-- A concrete valid Image holding buffer (2, [9, 8]). -/
def imgW : Image :=
  { size := 2, index := 3, plane := 1, memoryPoolIndex := 0, start := 4
  , device := 0, data := some (2, [9, 8]), valid := true }

/-- Witness for C8 at the concrete Image `imgW` and fresh allocation 7. -/
theorem image_move_copy_witness :
    imgW.data = some (2, [9, 8]) ∧ [9, 8].length = imgW.size ∧
      MoveCopySpec imgW 7 2 [9, 8] :=
  ⟨rfl, rfl, image_move_copy imgW 7 2 [9, 8] rfl rfl⟩

/-! ### C5 and C2: Receiver::loadImage -/

/-- Positions of the stitched output: folding the per-module copies (stripe
width `w`, source offset `so`) over modules `0..M` writes, for each `m < M`,
the source stripe of module `m` at output offset `m * w`, provided the `M`
stripes fit in the output buffer. -/
theorem foldl_copyRange_getD (buffers : Nat → List Nat) (w so : Nat) (sino0 : List Nat) :
    ∀ M, M * w ≤ sino0.length →
      ((List.range M).foldl
          (fun acc d => copyRange acc (d * w) (buffers d) so w) sino0).length =
        sino0.length ∧
      (∀ m j, m < M → j < w →
        ((List.range M).foldl
            (fun acc d => copyRange acc (d * w) (buffers d) so w) sino0).getD
          (m * w + j) 0 = (buffers m).getD (so + j) 0) := by
  intro M
  induction M with
  | zero => exact fun _ => ⟨rfl, fun m j hm _ => absurd hm (Nat.not_lt_zero m)⟩
  | succ n ih =>
    intro h
    have hn : n * w ≤ sino0.length :=
      le_trans (Nat.mul_le_mul_right w (Nat.le_succ n)) h
    obtain ⟨ihlen, ihget⟩ := ih hn
    rw [List.range_succ, List.foldl_append]
    simp only [List.foldl_cons, List.foldl_nil]
    refine ⟨by rw [copyRange_length, ihlen], ?_⟩
    intro m j hm hj
    rcases Nat.lt_succ_iff_lt_or_eq.mp hm with hlt | heq
    · have hj2 : m * w + j < (m + 1) * w := by
        calc m * w + j < m * w + w := Nat.add_lt_add_left hj _
        _ = (m + 1) * w := (Nat.succ_mul m w).symm
      have hmn : (m + 1) * w ≤ n * w := Nat.mul_le_mul_right w hlt
      rw [copyRange_getD_outside _ _ _ _ _ _ (Or.inl (lt_of_lt_of_le hj2 hmn))]
      exact ihget m j hlt hj
    · subst heq
      have h3 : m * w + j < (m + 1) * w := by
        calc m * w + j < m * w + w := Nat.add_lt_add_left hj _
        _ = (m + 1) * w := (Nat.succ_mul m w).symm
      rw [copyRange_getD_inside _ _ _ _ _ _ (Nat.le_add_right _ _)
        (Nat.add_lt_add_left hj _)
        (by rw [ihlen]; exact lt_of_lt_of_le h3 h)]
      congr 1
      omega

/-- The behaviour of `Receiver::loadImage` established on the code: the
sentinel is returned on shutdown; for a completed frame index `k` the result
keeps the requested buffer's validity, carries index `k`, the fresh start
timestamp `now`, and the stitched contents, in which, for each module
`m < numberOfDetectorModules`, the stripe of 16 × numberOfProjections samples
at ring-buffer slot `k % bufferSize` is copied to output offset
`m * 16 * numberOfProjections` (the stripe width is the hardcoded 16 of the
source, not numberOfDetectors / numberOfDetectorModules). -/
def LoadImageSpec (cfg : ReceiverConfig) (buffers : Nat → List Nat) (k : Nat)
    (sinoReq : Image) (now : Nat) (pid : Nat) (c : List Nat) : Prop :=
  (Receiver.loadImage cfg buffers none sinoReq now = Image.sentinel ∧
    Image.sentinel.valid = false) ∧
  ((Receiver.loadImage cfg buffers (some k) sinoReq now).index = k ∧
   (Receiver.loadImage cfg buffers (some k) sinoReq now).start = now ∧
   (Receiver.loadImage cfg buffers (some k) sinoReq now).valid = sinoReq.valid ∧
   (Receiver.loadImage cfg buffers (some k) sinoReq now).data =
     some (pid, Receiver.stitch cfg buffers k c)) ∧
  (∀ m j, m < cfg.numberOfDetectorModules → j < 16 * cfg.numberOfProjections →
    (Receiver.stitch cfg buffers k c).getD
        (m * (16 * cfg.numberOfProjections) + j) 0 =
      (buffers m).getD
        ((k % cfg.bufferSize) * (16 * cfg.numberOfProjections) + j) 0)

/-- C5 (amended): Receiver::loadImage returns the invalid sentinel on
shutdown; otherwise it returns an Image with frame index `k`, a fresh start
timestamp, and a sinogram stitched with the hardcoded stripe width 16 (not
number_of_fan_detectors / number_of_det_modules as claimed): module `m`'s
16 × numberOfProjections samples at slot `k % inputBufferSize` land at output
offset `m * 16 * numberOfProjections`. -/
theorem loadImage_spec (cfg : ReceiverConfig) (buffers : Nat → List Nat) (k : Nat)
    (sinoReq : Image) (now pid : Nat) (c : List Nat)
    (hdata : sinoReq.data = some (pid, c))
    (hcap : cfg.numberOfDetectorModules * (16 * cfg.numberOfProjections) ≤ c.length) :
    LoadImageSpec cfg buffers k sinoReq now pid c := by
  obtain ⟨_, hget⟩ :=
    foldl_copyRange_getD buffers (16 * cfg.numberOfProjections)
      ((k % cfg.bufferSize) * (16 * cfg.numberOfProjections)) c
      cfg.numberOfDetectorModules hcap
  refine ⟨⟨rfl, rfl⟩, ⟨rfl, rfl, rfl, ?_⟩, ?_⟩
  · simp [Receiver.loadImage, hdata]
  · intro m j hm hj
    exact hget m j hm hj

/-- Concrete receiver configuration with 64 fan detectors and 2 modules, so
that the claimed stripe width 64 / 2 = 32 differs from the hardcoded 16. -/
def cfgB : ReceiverConfig :=
  { numberOfDetectors := 64, numberOfDetectorModules := 2
  , numberOfProjections := 1, bufferSize := 1 }

/-- Concrete module ring buffers: module m holds [100m, 100m+1, …, 100m+31]. -/
def bufsB : Nat → List Nat := fun m => (List.range 32).map fun i => 100 * m + i

/-- A concrete requested pool buffer of 64 elements, all 999. -/
def reqB : Image :=
  { size := 64, index := 0, plane := 0, memoryPoolIndex := 0, start := 0
  , device := 0, data := some (3, List.replicate 64 999), valid := true }

/-- Counterexample to C5 as stated: with 64 fan detectors and 2 modules the
claim places module 1's stripe of (64 / 2) × 1 samples at output offset
1 * (64 / 2) * 1 = 32, whose first sample would be ring-buffer value 100; the
code instead copies stripes of hardcoded width 16, leaving position 32 at the
uninitialised value 999. -/
theorem loadImage_stripe_counterexample :
    ((Receiver.loadImage cfgB bufsB (some 0) reqB 0).data.map
        fun b => b.2.getD (1 * (64 / 2) * 1 + 0) 0) = some 999 ∧
    (bufsB 1).getD ((0 % 1) * (64 / 2) * 1 + 0) 0 = 100 ∧
    ¬((999 : Nat) = 100) := by decide

/-- Witness for C5 at the concrete configuration `cfgB`. -/
theorem loadImage_spec_witness :
    reqB.data = some (3, List.replicate 64 999) ∧
    cfgB.numberOfDetectorModules * (16 * cfgB.numberOfProjections) ≤
      (List.replicate 64 999).length ∧
    LoadImageSpec cfgB bufsB 0 reqB 0 3 (List.replicate 64 999) :=
  ⟨rfl, by decide,
    loadImage_spec cfgB bufsB 0 reqB 0 3 (List.replicate 64 999) rfl (by decide)⟩

/-- The plane invariant that holds on the code: the Receiver assigns
plane = index % 2 (% 2 is hardcoded, so this equals
index % numberOfPlanes exactly for the configured value 2), and every stage's
worker body forwards plane and index unchanged, so every Image reaching the
end of the pipeline satisfies plane = index % 2. -/
def PlaneInvariantSpec (cfg : ReceiverConfig) (buffers : Nat → List Nat) (k : Nat)
    (sinoReq : Image) (now : Nat) (numberOfPlanes : Nat) : Prop :=
  (Receiver.loadImage cfg buffers (some k) sinoReq now).plane = k % numberOfPlanes ∧
  (Receiver.loadImage cfg buffers (some k) sinoReq now).index = k ∧
  (∀ s f d, (H2D.processorStep s f d).plane = s.plane ∧
    (H2D.processorStep s f d).index = s.index) ∧
  (∀ s r, (D2H.processorStep s r).plane = s.plane ∧
    (D2H.processorStep s r).index = s.index) ∧
  (∀ kern s f d, (Attenuation.processorStep kern s f d).plane = s.plane ∧
    (Attenuation.processorStep kern s f d).index = s.index)

/-- C2 (amended): the Image produced by Receiver::loadImage for frame index k
has plane = k % 2 — the modulus is the hardcoded 2 of the source, which
coincides with k % number_of_planes only for the configured value 2, not for
any configured value — and since every stage preserves plane and index, every
Image reaching the end of the pipeline satisfies plane = index % 2. -/
theorem plane_mod_two_invariant (cfg : ReceiverConfig) (buffers : Nat → List Nat)
    (k : Nat) (sinoReq : Image) (now : Nat) (numberOfPlanes : Nat)
    (hN : numberOfPlanes = 2) :
    PlaneInvariantSpec cfg buffers k sinoReq now numberOfPlanes := by
  subst hN
  exact ⟨rfl, rfl, fun s f d => ⟨rfl, rfl⟩, fun s r => ⟨rfl, rfl⟩,
    fun kern s f d => ⟨rfl, rfl⟩⟩

/-- Counterexample to C2 as stated: with number_of_planes configured to 3 the
claim requires the frame of index 2 to carry plane 2 % 3 = 2, but loadImage
hardcodes plane = index % 2, yielding plane 0. -/
theorem plane_mod_counterexample :
    (Receiver.loadImage cfgB bufsB (some 2) reqB 5).plane = 0 ∧
    2 % 3 = 2 ∧ ¬((0 : Nat) = 2) := by decide

/-- Witness for C2 with the reference configuration value number_of_planes = 2
at the concrete receiver configuration `cfgB`. -/
theorem plane_mod_two_invariant_witness :
    (2 : Nat) = 2 ∧ PlaneInvariantSpec cfgB bufsB 5 reqB 9 2 :=
  ⟨rfl, plane_mod_two_invariant cfgB bufsB 5 reqB 9 2 rfl⟩

/-! ### C1: sentinel propagation through a stage -/

/-- The sentinel behaviour of `process` with `K` worker queues: the action
sequence consists of one push of an invalid Image into each of the `K` worker
queues, then the `K` joins, then a single push of an invalid Image into the
output queue; every pushed image is invalid, exactly one output push happens,
exactly one push reaches each worker queue, and a worker loop consumes its
queue only up to (and including) the first invalid image. -/
def SentinelBroadcastSpec (K : Nat) (input : Image) : Prop :=
  (∀ d, d < K → countPushWorkerTo d (stageProcess K input) = 1) ∧
  (∀ e ∈ stageProcess K input, ∀ d img, e = Event.pushWorker d img →
    img.valid = false) ∧
  countPushResult (stageProcess K input) = 1 ∧
  (stageProcess K input =
    ((List.range K).map fun i => Event.pushWorker i Image.sentinel) ++
    ((List.range K).map fun i => Event.joinWorker i) ++
    [Event.pushResult Image.sentinel]) ∧
  Image.sentinel.valid = false ∧
  (∀ lastDevice, H2D.process K lastDevice input = (stageProcess K input, lastDevice)) ∧
  (∀ (transform : Image → Image) (xs ys : List Image),
    (∀ x ∈ xs, x.valid = true) →
    workerRun transform (xs ++ input :: ys) = xs.map transform)

/-- C1: when process is called with the end-of-stream sentinel and the stage
has K per-device worker queues, it pushes exactly one invalid Image into each
of the K worker queues, joins all K worker threads, and then pushes exactly
one invalid Image into the stage's output queue; each worker's loop exits
upon taking an invalid Image from its queue. -/
theorem stageProcess_sentinel (K : Nat) (input : Image)
    (hK : input.valid = false) : SentinelBroadcastSpec K input := by
  have htrace : stageProcess K input =
      ((List.range K).map fun i => Event.pushWorker i Image.sentinel) ++
      ((List.range K).map fun i => Event.joinWorker i) ++
      [Event.pushResult Image.sentinel] := by
    simp [stageProcess, hK]
  refine ⟨?_, ?_, ?_, htrace, rfl, ?_, ?_⟩
  · intro d hd
    rw [htrace, countPushWorkerTo_append, countPushWorkerTo_append,
      countPushWorkerTo_pushes, countPushWorkerTo_joins]
    simp [countPushWorkerTo, hd]
  · intro e he d img hedi
    rw [htrace] at he
    subst hedi
    simp only [List.mem_append, List.mem_map, List.mem_singleton] at he
    rcases he with (⟨i, _, hi⟩ | ⟨i, _, hi⟩) | hi
    · cases hi; rfl
    · cases hi
    · cases hi
  · rw [htrace, countPushResult_append, countPushResult_append,
      countPushResult_pushes, countPushResult_joins]
    simp [countPushResult]
  · intro lastDevice
    simp [H2D.process, stageProcess, hK]
  · intro transform xs ys hxs
    exact workerRun_until_invalid transform xs ys input hK hxs

/-- Witness for C1 with 2 worker queues and the sentinel input. -/
theorem stageProcess_sentinel_witness :
    Image.sentinel.valid = false ∧ SentinelBroadcastSpec 2 Image.sentinel :=
  ⟨rfl, stageProcess_sentinel 2 Image.sentinel rfl⟩

/-! ### C4: routing of valid images -/

/-- A concrete valid Image owned by device 0. -/
def imgA : Image :=
  { size := 2, index := 5, plane := 1, memoryPoolIndex := 0, start := 0
  , device := 0, data := some (2, [1, 2]), valid := true }

/-- Counterexample to C4 as stated: H2D is a stage of the pipeline, yet its
process entry pushes the valid image `imgA` — whose own device is 0 — into
worker queue 1, because H2D routes round-robin by the lastDevice counter
(here 1), not by in.device(). -/
theorem h2d_routing_counterexample :
    H2D.process 2 1 imgA = ([Event.pushWorker 1 imgA], 0) ∧
    imgA.device = 0 ∧ ¬((1 : Nat) = 0) := by decide

/-- The routing that holds on the code: Attenuation, D2H and Template push a
valid input into the worker queue of the input's own device, while H2D pushes
it into the worker queue of its round-robin counter `lastDevice_` and then
advances that counter modulo the number of devices. -/
def RoutingSpec (K lastDevice : Nat) (input : Image) : Prop :=
  stageProcess K input = [Event.pushWorker input.device input] ∧
  H2D.process K lastDevice input =
    ([Event.pushWorker lastDevice input], (lastDevice + 1) % K)

/-- C4 (amended): every stage except H2D enqueues a valid Image into the
per-device worker queue selected by the Image's own device identifier; H2D
instead enqueues it into the queue of its round-robin lastDevice counter and
increments that counter modulo the number of devices. -/
theorem routing_by_device (K lastDevice : Nat) (input : Image)
    (hv : input.valid = true) : RoutingSpec K lastDevice input := by
  constructor
  · simp [stageProcess, hv]
  · simp [H2D.process, hv]

/-- Witness for C4 at the concrete valid image `imgA`. -/
theorem routing_by_device_witness :
    imgA.valid = true ∧ RoutingSpec 2 1 imgA :=
  ⟨rfl, routing_by_device 2 1 imgA rfl⟩

/-! ### C6: H2D loss accounting -/

theorem getLastD_ne_nil {xs : List Nat} (h : xs ≠ []) (a b : Nat) :
    xs.getLastD a = xs.getLastD b := by
  cases xs with
  | nil => exact absurd rfl h
  | cons y ys => rw [List.getLastD_cons, List.getLastD_cons]

theorem emod_add_sub (A B C D : Int) :
    ((A % (2 ^ 32)) + B - C - D) % (2 ^ 32) = (A + B - C - D) % (2 ^ 32) := by
  have h1 : A % (2 ^ 32) + B - C - D = A % (2 ^ 32) + (B - C - D) := by ring
  have h2 : A + B - C - D = A + (B - C - D) := by ring
  rw [h1, h2, Int.add_emod, Int.emod_emod_of_dvd _ dvd_rfl, ← Int.add_emod]

/-- Telescoping of the loss counter: folding `lossStep` over a nonempty index
sequence yields (initial counter + last index − initial lastIndex − count)
reduced modulo 2^32, and the final lastIndex is the last index. -/
theorem lossRun_foldl :
    ∀ (ks : List Nat) (s : H2DCounters), ks ≠ [] →
      (ks.foldl H2D.lossStep s).lostSinos =
        ((((s.lostSinos : Int) + (ks.getLastD 0 : Int) - (s.lastIndex : Int) -
          (ks.length : Int))) % (2 ^ 32)).toNat ∧
      (ks.foldl H2D.lossStep s).lastIndex = ks.getLastD 0 := by
  intro ks
  induction ks with
  | nil => exact fun s h => absurd rfl h
  | cons x xs ih =>
    intro s _
    cases hxs : xs with
    | nil =>
      subst hxs
      refine ⟨?_, ?_⟩
      · simp only [List.foldl_cons, List.foldl_nil, H2D.lossStep,
          List.getLastD_cons, List.getLastD_nil, List.length_cons, List.length_nil]
        congr 2
        push_cast
        ring
      · simp only [List.foldl_cons, List.foldl_nil, H2D.lossStep,
          List.getLastD_cons, List.getLastD_nil]
    | cons y ys =>
      rw [← hxs]
      have hne : xs ≠ [] := by rw [hxs]; exact List.cons_ne_nil y ys
      obtain ⟨ih1, ih2⟩ := ih (H2D.lossStep s x) hne
      have hlast : (x :: xs).getLastD 0 = xs.getLastD 0 := by
        rw [List.getLastD_cons]
        exact getLastD_ne_nil hne x 0
      refine ⟨?_, ?_⟩
      · rw [List.foldl_cons, ih1, hlast]
        simp only [H2D.lossStep, List.length_cons]
        have hnn : (0 : Int) ≤
            ((s.lostSinos : Int) + ((x : Int) - (s.lastIndex : Int) - 1)) % (2 ^ 32) :=
          Int.emod_nonneg _ (by norm_num)
        congr 1
        rw [Int.toNat_of_nonneg hnn, emod_add_sub]
        congr 1
        push_cast
        ring
      · rw [List.foldl_cons, ih2, hlast]

theorem chain_le_getLastD :
    ∀ (ks : List Nat), List.Chain' (· ≤ ·) ks → ∀ x ∈ ks, x ≤ ks.getLastD 0 := by
  intro ks
  induction ks with
  | nil => intro _ x hx; cases hx
  | cons a xs ih =>
    intro hchain x hx
    cases xs with
    | nil =>
      rw [List.mem_singleton] at hx
      subst hx
      rw [List.getLastD_cons, List.getLastD_nil]
    | cons y ys =>
      have h1 : a ≤ y := (List.chain'_cons.mp hchain).1
      have h2 := ih (List.chain'_cons.mp hchain).2
      have hy : y ≤ (y :: ys).getLastD 0 := h2 y (List.mem_cons_self y ys)
      rw [List.getLastD_cons]
      have hsame : (y :: ys).getLastD a = (y :: ys).getLastD 0 :=
        getLastD_ne_nil (List.cons_ne_nil y ys) a 0
      rw [hsame]
      rcases List.mem_cons.mp hx with h | h
      · subst h; exact le_trans h1 hy
      · exact h2 x h

/-- The loss accounting that holds on the code for a non-decreasing sequence
of forwarded frame indices: the 32-bit counter lostSinos_ equals
(highest index seen − number of frames forwarded) reduced modulo 2^32 — the
highest index seen being the last one — and the counter is 0 for the gapless
sequence 1, 2, …, n. -/
def LossAccountingSpec (ks : List Nat) : Prop :=
  (((H2D.lossRun ks).lostSinos : Int) =
    ((ks.getLastD 0 : Int) - (ks.length : Int)) % (2 ^ 32)) ∧
  (∀ x ∈ ks, x ≤ ks.getLastD 0) ∧
  (ks = List.range' 1 ks.length → (H2D.lossRun ks).lostSinos = 0)

/-- C6 (amended): after a nonempty sequence of valid Images with
non-decreasing frame indices has been passed to H2D::process, the reported
lost-frame counter equals (highest index seen − count of frames forwarded)
modulo 2^32 — the counter is a 32-bit unsigned integer, so for sequences
starting at index 0 it wraps instead of being 0 (see the counterexample); for
the gapless sequence starting at index 1 it is 0. -/
theorem loss_counter_spec (ks : List Nat) (hne : ks ≠ [])
    (hmono : List.Chain' (· ≤ ·) ks) : LossAccountingSpec ks := by
  have e1 : ({ lastIndex := 0, lostSinos := 0 } : H2DCounters).lostSinos = 0 := rfl
  have e2 : ({ lastIndex := 0, lostSinos := 0 } : H2DCounters).lastIndex = 0 := rfl
  have h1' : (H2D.lossRun ks).lostSinos =
      (((ks.getLastD 0 : Int) - (ks.length : Int)) % (2 ^ 32)).toNat := by
    rw [H2D.lossRun, (lossRun_foldl ks { lastIndex := 0, lostSinos := 0 } hne).1,
      e1, e2]
    congr 2
    push_cast
    ring
  have hnn : (0 : Int) ≤ ((ks.getLastD 0 : Int) - (ks.length : Int)) % (2 ^ 32) :=
    Int.emod_nonneg _ (by norm_num)
  have hval : ((H2D.lossRun ks).lostSinos : Int) =
      ((ks.getLastD 0 : Int) - (ks.length : Int)) % (2 ^ 32) := by
    rw [h1', Int.toNat_of_nonneg hnn]
  refine ⟨hval, chain_le_getLastD ks hmono, ?_⟩
  intro hks
  have hlen : ks.getLastD 0 = ks.length := by
    conv_lhs => rw [hks]
    cases hn : ks.length with
    | zero => rw [hn] at hks; exact absurd hks hne
    | succ n =>
      rw [List.range'_concat, List.getLastD_concat]
      omega
  have hz : ((H2D.lossRun ks).lostSinos : Int) = 0 := by
    rw [hval, hlen]
    simp
  exact_mod_cast hz

/-- Counterexample to C6 as stated: the single valid Image with frame index 0
skips nothing, so the claim demands a reported loss of 0 (and its equation
demands highest − forwarded = 0 − 1); the code computes
diff = 0 − lastIndex_(0) − 1 = −1 and adds it to the unsigned 32-bit counter,
which wraps to 2^32 − 1 — neither 0 nor the claimed value. -/
theorem loss_counter_counterexample :
    (H2D.lossRun [0]).lostSinos = 2 ^ 32 - 1 ∧
    ¬(((H2D.lossRun [0]).lostSinos : Int) = (0 : Int) - 1) ∧
    ¬((H2D.lossRun [0]).lostSinos = 0) := by decide

/-- Witness for C6 at the concrete non-decreasing index sequence [1, 2, 4]. -/
theorem loss_counter_spec_witness :
    ([1, 2, 4] : List Nat) ≠ [] ∧ List.Chain' (· ≤ ·) ([1, 2, 4] : List Nat) ∧
      LossAccountingSpec [1, 2, 4] :=
  ⟨by simp, by simp [List.chain'_cons], loss_counter_spec [1, 2, 4] (by simp)
    (by simp [List.chain'_cons])⟩

/-! ### C3: configuration checks at construction -/

/-- A configuration carrying every key Template needs. -/
def cfgPixels : Config := [("number_of_pixels", CVal.numVal 256)]

/-- The empty configuration: every required key is missing. -/
def cfgEmpty : Config := []

/-- A configuration carrying every key D2H needs. -/
def cfgD2H : Config :=
  [("number_of_pixels", CVal.numVal 256), ("mempoolsize_d2h", CVal.numVal 50)]

/-- A configuration carrying every key H2D needs. -/
def cfgH2D : Config :=
  [("number_of_fan_detectors", CVal.numVal 448), ("mempoolsize_h2d", CVal.numVal 300),
   ("sampling_rate", CVal.numVal 2), ("scan_rate", CVal.numVal 1000)]

/-- A configuration carrying every key the Receiver needs. -/
def cfgReceiver : Config :=
  [("samplingRate", CVal.numVal 2), ("numberOfFanDetectors", CVal.numVal 448),
   ("scanRate", CVal.numVal 1000), ("inputBufferSize", CVal.numVal 1000),
   ("numberOfDetectorModules", CVal.numVal 28)]

/-- A configuration carrying every key Attenuation needs. -/
def cfgAttenuation : Config := Attenuation.configKeys.map fun k => (k, CVal.numVal 1)

/-- The dark and reference input path entries Attenuation needs. -/
def inputsAttenuation : List (String × String) :=
  [("dark", "./dark/"), ("reference", "./ref/")]

/-- A configuration in which `number_of_pixels` is present but holds a string
(a bad type for the numeric accessor). -/
def cfgBadType : Config := [("number_of_pixels", CVal.strVal "lots")]

/-- C3 (evaluated at the failing input): for Receiver, Attenuation, H2D and
D2H the claim holds — readConfig returns non-zero exactly on a missing or
badly typed key and the constructor throws exactly then — but Template's
constructor contradicts it: its test is `if (!readConfig(...)) throw`, so with
every required key present readConfig returns 0 (success) and the constructor
still throws, while with the key missing or of a bad type readConfig returns
1 (failure) and the constructor does not throw. -/
theorem template_inverted_config_check :
    (Template.readConfig cfgPixels = 0 ∧
     Template.construct cfgPixels =
       Except.error "recoLib::cuda::Template: unable to read config file. Please check!") ∧
    (Template.readConfig cfgEmpty = 1 ∧ Template.construct cfgEmpty = Except.ok ()) ∧
    (Template.readConfig cfgBadType = 1 ∧ Template.construct cfgBadType = Except.ok ()) ∧
    (D2H.readConfig cfgD2H = 0 ∧ D2H.construct cfgD2H = Except.ok ()) ∧
    (D2H.readConfig cfgEmpty = 1 ∧ D2H.construct cfgEmpty =
      Except.error "recoLib::cuda::D2H: unable to read config file. Please check!") ∧
    (H2D.readConfig cfgH2D = 0 ∧ H2D.construct cfgH2D = Except.ok ()) ∧
    (H2D.readConfig cfgEmpty = 1 ∧ H2D.construct cfgEmpty =
      Except.error "Configuration file could not be read. Please check!") ∧
    (Receiver.readConfig cfgReceiver = 0 ∧
     Receiver.construct cfgReceiver = Except.ok ()) ∧
    (Receiver.readConfig cfgEmpty = 1 ∧ Receiver.construct cfgEmpty =
      Except.error "Receiver: Configuration file could not be loaded successfully. Please check!") ∧
    (Attenuation.readConfig cfgAttenuation inputsAttenuation = 0 ∧
     Attenuation.construct cfgAttenuation inputsAttenuation = Except.ok ()) ∧
    (Attenuation.readConfig cfgEmpty inputsAttenuation = 1 ∧
     Attenuation.construct cfgEmpty inputsAttenuation =
       Except.error "recoLib::cuda::Attenuation: Configuration file could not be loaded successfully. Please check!") := by
  exact ⟨⟨rfl, rfl⟩, ⟨rfl, rfl⟩, ⟨rfl, rfl⟩, ⟨rfl, rfl⟩, ⟨rfl, rfl⟩, ⟨rfl, rfl⟩,
    ⟨rfl, rfl⟩, ⟨rfl, rfl⟩, ⟨rfl, rfl⟩, ⟨rfl, rfl⟩, rfl, rfl⟩

/-! ### C9: workers preserve frame metadata -/

/-- The metadata preservation that holds for each stage's worker body: the
output Image carries the input's frame index, plane and start timestamp; for
the device stages the output's device is the worker's deviceID. -/
def MetadataPreservationSpec (sinogram img ret sino : Image) (deviceID : Nat)
    (kernel : List Nat → Nat → List Nat) : Prop :=
  ((H2D.processorStep sinogram img deviceID).index = sinogram.index ∧
   (H2D.processorStep sinogram img deviceID).plane = sinogram.plane ∧
   (H2D.processorStep sinogram img deviceID).start = sinogram.start ∧
   (H2D.processorStep sinogram img deviceID).device = deviceID) ∧
  ((D2H.processorStep sinogram ret).index = sinogram.index ∧
   (D2H.processorStep sinogram ret).plane = sinogram.plane ∧
   (D2H.processorStep sinogram ret).start = sinogram.start) ∧
  ((Attenuation.processorStep kernel sinogram sino deviceID).index = sinogram.index ∧
   (Attenuation.processorStep kernel sinogram sino deviceID).plane = sinogram.plane ∧
   (Attenuation.processorStep kernel sinogram sino deviceID).start = sinogram.start ∧
   (Attenuation.processorStep kernel sinogram sino deviceID).device = deviceID)

/-- C9: for every valid input Image consumed by a worker of H2D, D2H or
Attenuation, the published output carries the input's frame index, plane and
acquisition start timestamp; only the backing buffer (the fresh pool buffer)
and the owning device change. -/
theorem processor_preserves_metadata (sinogram img ret sino : Image)
    (deviceID : Nat) (kernel : List Nat → Nat → List Nat)
    (_hv : sinogram.valid = true) :
    MetadataPreservationSpec sinogram img ret sino deviceID kernel :=
  ⟨⟨rfl, rfl, rfl, rfl⟩, ⟨rfl, rfl, rfl⟩, rfl, rfl, rfl, rfl⟩

/-- Witness for C9 at the concrete valid image `imgA`. -/
theorem processor_preserves_metadata_witness :
    imgA.valid = true ∧
      MetadataPreservationSpec imgA imgW reqB imgW 1 (fun c _ => c) :=
  ⟨rfl, processor_preserves_metadata imgA imgW reqB imgW 1 (fun c _ => c) rfl⟩

/-! ### C10: Volume slice access -/

/-- A concrete 2 × 3 × 2 volume holding 0, 1, …, 11. -/
def volA : Volume :=
  { width := 2, height := 3, depth := 2, ptrId := 0
  , contents := List.range 12, valid := true }

/-- Counterexample to C10 as stated: slicing `volA` (width 2, height 3,
depth 2) at index 1 yields an Image whose index is 3 — the height, because
`operator[]` passes `{width_, height_, i}` to the constructor
`Image(size, idx, planeID)` — not the slice index 1 the claim requires. -/
theorem volume_slice_index_counterexample :
    ((volA.sliceAt 1 9).toOption.map Image.index) = some 3 ∧ ¬((3 : Nat) = 1) := by
  decide

/-- The slice access that holds on the code: out-of-range indices throw
out_of_range; an in-range index `i` yields a valid Image whose buffer is a
fresh width × height allocation (different pointer than the volume's) holding
exactly slice `i`, with size = width, index = height and plane = i. -/
def SliceAtSpec (v : Volume) (i allocId : Nat) : Prop :=
  (∀ j, v.depth ≤ j →
    v.sliceAt j allocId = Except.error "Volume: invalid slice index") ∧
  (∃ img : Image,
    v.sliceAt i allocId = Except.ok img ∧
    img.valid = true ∧ img.size = v.width ∧ img.index = v.height ∧
    img.plane = i ∧
    img.data = some (allocId,
      (v.contents.drop (i * v.width * v.height)).take (v.width * v.height)) ∧
    (∀ b ∈ img.data, b.2.length = v.width * v.height) ∧
    (∀ b ∈ img.data, b.1 ≠ v.ptrId))

/-- C10 (amended): Volume::operator[] throws std::out_of_range exactly when
i ≥ depth(); for i < depth() it returns a valid Image whose contents equal
slice i of the volume, copied into freshly allocated width × height memory
that does not alias the Volume's buffer — but, because the call
`Image{width_, height_, i, ptr}` hits the constructor
`Image(size, idx, planeID, data)`, the Image's size is width, its index is
height and its plane is i, not index = i as claimed. -/
theorem volume_sliceAt_spec (v : Volume) (i allocId : Nat)
    (hi : i < v.depth)
    (hlen : v.contents.length = v.width * v.height * v.depth)
    (hfresh : allocId ≠ v.ptrId) :
    SliceAtSpec v i allocId := by
  refine ⟨?_, ?_⟩
  · intro j hj
    simp [Volume.sliceAt, hj]
  · refine ⟨Image.ctor4 v.width v.height i
      (some (allocId,
        (v.contents.drop (i * v.width * v.height)).take (v.width * v.height)))
      allocId, ?_, rfl, rfl, rfl, rfl, rfl, ?_, ?_⟩
    · simp [Volume.sliceAt, Nat.not_le.mpr hi]
    · intro b hb
      simp only [Image.ctor4, Option.mem_def, Option.some.injEq] at hb
      subst hb
      simp only [List.length_take, List.length_drop, hlen]
      have hstep : (i + 1) * (v.width * v.height) ≤ v.depth * (v.width * v.height) :=
        Nat.mul_le_mul_right _ hi
      have hassoc : i * v.width * v.height = i * (v.width * v.height) :=
        Nat.mul_assoc i v.width v.height
      have hassoc2 : v.width * v.height * v.depth = v.depth * (v.width * v.height) := by
        ring
      rw [hassoc, hassoc2]
      rw [Nat.succ_mul] at hstep
      omega
    · intro b hb
      simp only [Image.ctor4, Option.mem_def, Option.some.injEq] at hb
      subst hb
      exact hfresh

/-- Witness for C10 at the concrete volume `volA`, slice 1, allocation 9. -/
theorem volume_sliceAt_spec_witness :
    1 < volA.depth ∧ volA.contents.length = volA.width * volA.height * volA.depth ∧
      (9 : Nat) ≠ volA.ptrId ∧ SliceAtSpec volA 1 9 :=
  ⟨by decide, by decide, by decide, volume_sliceAt_spec volA 1 9 (by decide)
    (by decide) (by decide)⟩

end RISA
